import Mathlib

/-!
# Verification of the date-task utilities (`src/04-date-tasks.js`)

Shallow embedding of the five functions of the module:
`parseDataFromRfc2822`, `parseDataFromIso8601`, `isLeapYear`,
`timeSpanToString`, `angleBetweenClockHands`.

A JavaScript `Date` object is modelled by the record of the observations
the module reads from it (`getTime`, `getFullYear`, `getUTCHours`,
`getMinutes`, ...).  Machine numbers are modelled by `Int`/`Nat` (all the
arithmetic the module performs on date components is exact in doubles),
and the floating-point angle computation is modelled in exact arithmetic:
the degree-valued part in `ℚ` and the final conversion to radians in `ℝ`.
JavaScript `%` on signed numbers is truncated remainder, i.e. `Int.tmod`.
-/

namespace DateTasks

/-- Model of a JavaScript `Date` object: the record of the observations
(`getTime`, `getFullYear`, `getMonth`, `getDate`, `getHours`,
`getMinutes`, `getSeconds`, `getMilliseconds`, `getUTCHours`,
`getUTCMinutes`) that the module can read from it. -/
structure JSDate where
  epochMs : Int
  fullYear : Int
  month : Nat
  dayOfMonth : Nat
  localHours : Nat
  minutes : Nat
  seconds : Nat
  milliseconds : Nat
  utcHours : Nat
  utcMinutes : Nat
  deriving DecidableEq, Repr

/-! ## The platform date parser (modelled from the spec)

Both parsing functions of the module are `return new Date(value);`: the
actual text-to-instant conversion happens in the `Date` constructor of the platform
constructor, which is not part of the repository.  Following spec
sections 4.1/4.2/7, the parser is modelled as a total function returning
`some epochMilliseconds` for a recognized string and `none` — the
"invalid date" sentinel, the analogue of the JavaScript *Invalid Date*
(a `Date` whose `getTime()` is `NaN`) — otherwise. -/

/-- Modelled from the spec: conversion of a civil date to days since the
epoch 1970-01-01 (the proleptic-Gregorian day-count used by the date
arithmetic of the platform).  `Int` division here is Euclidean division, which for
the positive divisors used is floor division. -/
def daysFromCivil (y : Int) (m d : Nat) : Int :=
  let y' : Int := if m ≤ 2 then y - 1 else y
  let era : Int := y' / 400
  let yoe : Int := y' - era * 400
  let mp : Nat := (m + 9) % 12
  let doy : Int := ((153 * mp + 2) / 5 + d - 1 : Nat)
  let doe : Int := yoe * 365 + yoe / 4 - yoe / 100 + doy
  era * 146097 + doe - 719468

/-- Numeric value of a decimal digit character. -/
def digitNat (c : Char) : Nat := c.toNat - 48

/-- Modelled from the spec: the time-zone designator at the end of an
ISO 8601 string — `Z`, or an explicit offset `+HH:MM` / `-HH:MM` —
as a signed offset in minutes; `none` when the tail is not a valid
designator. -/
def parseOffsetMinutes (rest : List Char) : Option Int :=
  match rest with
  | ['Z'] => some 0
  | [sign, a, b, ':', c, d] =>
    if (sign = '+' ∨ sign = '-') ∧
        a.isDigit ∧ b.isDigit ∧ c.isDigit ∧ d.isDigit then
      let hh := digitNat a * 10 + digitNat b
      let mm := digitNat c * 10 + digitNat d
      if hh ≤ 23 ∧ mm ≤ 59 then
        if sign = '+' then some (hh * 60 + mm) else some (-(hh * 60 + mm : Int))
      else none
    else none
  | _ => none

/-- Modelled from the spec: the platform date parser invoked by
`new Date(string)`.  Spec sections 4.1/4.2/7: a recognized date string
(the ISO 8601 forms `YYYY-MM-DDTHH:MM:SS` with `Z` or `±HH:MM`
designator are the ones the spec exhibits) is mapped to the epoch
milliseconds of the instant it denotes; any other string yields the
invalid-date sentinel `none`; the parser never throws (it is a total
function). -/
def jsNewDate (value : String) : Option Int :=
  match value.data with
  | y1 :: y2 :: y3 :: y4 :: '-' :: m1 :: m2 :: '-' :: d1 :: d2 :: 'T' ::
      h1 :: h2 :: ':' :: mi1 :: mi2 :: ':' :: s1 :: s2 :: rest =>
    if y1.isDigit ∧ y2.isDigit ∧ y3.isDigit ∧ y4.isDigit ∧
        m1.isDigit ∧ m2.isDigit ∧ d1.isDigit ∧ d2.isDigit ∧
        h1.isDigit ∧ h2.isDigit ∧ mi1.isDigit ∧ mi2.isDigit ∧
        s1.isDigit ∧ s2.isDigit then
      let year : Nat :=
        digitNat y1 * 1000 + digitNat y2 * 100 + digitNat y3 * 10 + digitNat y4
      let month : Nat := digitNat m1 * 10 + digitNat m2
      let day : Nat := digitNat d1 * 10 + digitNat d2
      let hour : Nat := digitNat h1 * 10 + digitNat h2
      let minute : Nat := digitNat mi1 * 10 + digitNat mi2
      let second : Nat := digitNat s1 * 10 + digitNat s2
      match parseOffsetMinutes rest with
      | some off =>
        if 1 ≤ month ∧ month ≤ 12 ∧ 1 ≤ day ∧ day ≤ 31 ∧
            hour ≤ 23 ∧ minute ≤ 59 ∧ second ≤ 59 then
          some (daysFromCivil year month day * 86400000 +
            (hour * 3600000 + minute * 60000 + second * 1000 : Nat) - off * 60000)
        else none
      | none => none
    else none
  | _ => none

/-- Source: `function parseDataFromRfc2822(value) ... const data = new Date(value); return data;` -/
def parseDataFromRfc2822 (value : String) : Option Int :=
  let data := jsNewDate value
  data

/-- Source: `function parseDataFromIso8601(value) ... return new Date(value);` -/
def parseDataFromIso8601 (value : String) : Option Int :=
  jsNewDate value

/-- The standard validity query on a parse result: the JavaScript query
`!Number.isNaN(d.getTime())`, i.e. "is this date valid?". -/
def isValidDate (d : Option Int) : Bool :=
  d.isSome

/-! ## `isLeapYear` -/

/-- Source function `isLeapYear(date)` — verbatim:
```
let result = true;
const year = date.getFullYear();
if ((year % 100 === 0 || year % 4 !== 0) && year % 400 !== 0) {
  result = false;
}
return result;
```
JavaScript `%` is truncated remainder, `Int.tmod`. -/
def isLeapYear (date : JSDate) : Bool :=
  let year := date.fullYear
  if (year.tmod 100 = 0 ∨ year.tmod 4 ≠ 0) ∧ year.tmod 400 ≠ 0 then
    false
  else
    true

/-! ## `timeSpanToString` -/

/-- Source function `timeSpanToString(startDate, endDate)` — verbatim:
`diff = Math.abs(endDate.getTime() - startDate.getTime())`, decomposition
by integer division/modulo, and per-field padding by
`("00" + n).slice(n.toString().length)` (resp. `"000" + n` for the
milliseconds); a field equal to zero keeps its initial all-zero string.
JavaScript `slice(k)` on a string drops its first `k` characters. -/
def timeSpanToString (startDate endDate : JSDate) : String :=
  let diff : Nat := (endDate.epochMs - startDate.epochMs).natAbs
  let hDiff := diff / 3600000
  let mDiff := (diff % 3600000) / 60000
  let sDiff := ((diff % 3600000) % 60000) / 1000
  let msDiff := ((diff % 3600000) % 60000) % 1000
  let ms := if msDiff > 0 then ("000" ++ toString msDiff).drop (toString msDiff).length else "000"
  let s := if sDiff > 0 then ("00" ++ toString sDiff).drop (toString sDiff).length else "00"
  let m := if mDiff > 0 then ("00" ++ toString mDiff).drop (toString mDiff).length else "00"
  let h := if hDiff > 0 then ("00" ++ toString hDiff).drop (toString hDiff).length else "00"
  h ++ ":" ++ m ++ ":" ++ s ++ "." ++ ms

/-- Zero-padding of a number to (at least) two digits, as the spec
describes the rendering of the hour/minute/second fields. -/
def pad2 (n : Nat) : String :=
  if n < 10 then "0" ++ toString n else toString n

/-- Zero-padding of a number to (at least) three digits, as the spec
describes the rendering of the millisecond field. -/
def pad3 (n : Nat) : String :=
  if n < 10 then "00" ++ toString n
  else if n < 100 then "0" ++ toString n
  else toString n

/-- The timespan rendering exactly as the words of the spec describe it
(claim C3): each field of the decomposition of the absolute millisecond
difference rendered zero-padded with **no truncation of the hour
count**.  To be compared with `timeSpanToString`, which is translated
from the source. -/
def specTimeSpanToString (startDate endDate : JSDate) : String :=
  let diff : Nat := (endDate.epochMs - startDate.epochMs).natAbs
  pad2 (diff / 3600000) ++ ":" ++ pad2 ((diff % 3600000) / 60000) ++ ":" ++
    pad2 ((diff % 60000) / 1000) ++ "." ++ pad3 (diff % 1000)

/-! ## `angleBetweenClockHands` -/

/-- The degree-valued part of `function angleBetweenClockHands(date)` —
verbatim from the source, in exact arithmetic:
```
let hour = date.getUTCHours();
const minute = date.getMinutes();
if (hour > 12) { hour %= 12; }
const hourAngle = (hour + (minute / 60)) * 30;
const minuteAngle = (minute * 6);
let diff = hourAngle - minuteAngle;
if (Math.abs(diff) > 180) { diff = Math.abs(diff) - 360; }
```
-/
def clockDiffDeg (hour0 minute : Nat) : ℚ :=
  let hour := if hour0 > 12 then hour0 % 12 else hour0
  let hourAngle : ℚ := ((hour : ℚ) + (minute : ℚ) / 60) * 30
  let minuteAngle : ℚ := (minute : ℚ) * 6
  let diff : ℚ := hourAngle - minuteAngle
  if |diff| > 180 then |diff| - 360 else diff

/-- Source line `return Math.abs(((diff) * Math.PI) / 180);` — the final conversion
of the degree-valued difference to radians, in exact real arithmetic. -/
noncomputable def angleBetweenClockHands (date : JSDate) : ℝ :=
  |((clockDiffDeg date.utcHours date.minutes : ℚ) : ℝ) * Real.pi / 180|

/-! ## Decimal digit strings

`toString n` for a natural number is `Nat.repr`, built from
`Nat.toDigits 10`.  `decChars` is the fuel-free decimal-digit list it
computes, the handle for all reasoning about the padding-by-slice. -/

/-- The decimal digit characters of a natural number (most significant
first): the fuel-free form of `Nat.toDigits 10`. -/
def decChars (n : Nat) : List Char :=
  if _h : n < 10 then [Nat.digitChar n]
  else decChars (n / 10) ++ [Nat.digitChar (n % 10)]
termination_by n
decreasing_by exact Nat.div_lt_self (by omega) (by omega)

theorem decChars_lt10 {n : Nat} (h : n < 10) : decChars n = [Nat.digitChar n] := by
  rw [decChars]
  simp [h]

theorem decChars_ge10 {n : Nat} (h : 10 ≤ n) :
    decChars n = decChars (n / 10) ++ [Nat.digitChar (n % 10)] := by
  rw [decChars]
  simp [Nat.not_lt.mpr h]

theorem decChars_length_pos (n : Nat) : 0 < (decChars n).length := by
  by_cases h : n < 10
  · rw [decChars_lt10 h]; simp
  · rw [decChars_ge10 (by omega)]; simp

theorem toDigitsCore_eq (fuel : Nat) : ∀ (n : Nat) (ds : List Char), n < fuel →
    Nat.toDigitsCore 10 fuel n ds = decChars n ++ ds := by
  induction fuel with
  | zero => intro n ds h; omega
  | succ fuel ih =>
    intro n ds h
    by_cases h10 : n < 10
    · have h0 : n / 10 = 0 := by omega
      simp [Nat.toDigitsCore, h0, decChars_lt10 h10, Nat.mod_eq_of_lt h10]
    · have h0 : ¬ n / 10 = 0 := by omega
      simp only [Nat.toDigitsCore, h0, if_false]
      rw [ih (n / 10) _ (by omega)]
      conv_rhs => rw [decChars_ge10 (show 10 ≤ n by omega)]
      simp

theorem toString_nat (n : Nat) : toString n = ⟨decChars n⟩ := by
  show Nat.repr n = _
  rw [Nat.repr, Nat.toDigits, toDigitsCore_eq (n + 1) n [] (Nat.lt_succ_self n),
    List.append_nil]
  rfl

theorem decChars_two {n : Nat} (h1 : 10 ≤ n) (h2 : n < 100) :
    decChars n = [Nat.digitChar (n / 10), Nat.digitChar (n % 10)] := by
  rw [decChars_ge10 h1, decChars_lt10 (show n / 10 < 10 by omega)]
  rfl

theorem decChars_three {n : Nat} (h1 : 100 ≤ n) (h2 : n < 1000) :
    decChars n =
      [Nat.digitChar (n / 100), Nat.digitChar (n / 10 % 10), Nat.digitChar (n % 10)] := by
  rw [decChars_ge10 (show 10 ≤ n by omega),
    decChars_two (show 10 ≤ n / 10 by omega) (show n / 10 < 100 by omega)]
  have h3 : n / 10 / 10 = n / 100 := by omega
  rw [h3]
  rfl

theorem decChars_drop_last (m : Nat) :
    (decChars m).drop ((decChars m).length - 1) = [Nat.digitChar (m % 10)] := by
  by_cases h : m < 10
  · rw [decChars_lt10 h]
    simp [Nat.mod_eq_of_lt h]
  · rw [decChars_ge10 (by omega)]
    have hl : (decChars (m / 10) ++ [Nat.digitChar (m % 10)]).length - 1 =
        (decChars (m / 10)).length := by simp
    rw [hl, List.drop_left]

theorem decChars_drop_two {n : Nat} (h : 10 ≤ n) :
    (decChars n).drop ((decChars n).length - 2) =
      [Nat.digitChar (n / 10 % 10), Nat.digitChar (n % 10)] := by
  rw [decChars_ge10 h]
  have hp := decChars_length_pos (n / 10)
  have hl : (decChars (n / 10) ++ [Nat.digitChar (n % 10)]).length - 2 =
      (decChars (n / 10)).length - 1 := by
    simp only [List.length_append, List.length_singleton]
    omega
  rw [hl, List.drop_append_of_le_length (by omega), decChars_drop_last]
  rfl

theorem decChars_length_ge3 {n : Nat} (h : 100 ≤ n) : 3 ≤ (decChars n).length := by
  rw [decChars_ge10 (show 10 ≤ n by omega), decChars_ge10 (show 10 ≤ n / 10 by omega)]
  have := decChars_length_pos (n / 10 / 10)
  simp only [List.length_append, List.length_singleton]
  omega

/-! ## The padding-by-slice

`("00" + n).slice(n.toString().length)` keeps exactly the last two
characters of `"00" + n`, i.e. the last two decimal digits of `n`
zero-padded — `pad2 (n % 100)`; with `"000"` and a number below 1000 it
is exactly `pad3 n`. -/

theorem padSlice2 (n : Nat) :
    ("00" ++ toString n).drop (toString n).length = pad2 (n % 100) := by
  rw [toString_nat, String.drop_eq]
  show (⟨('0' :: '0' :: decChars n).drop (decChars n).length⟩ : String) = pad2 (n % 100)
  by_cases ha : n < 10
  · have hn : n % 100 = n := by omega
    rw [hn, decChars_lt10 ha]
    simp only [pad2, if_pos ha, toString_nat, decChars_lt10 ha]
    rfl
  · by_cases hb : n < 100
    · have hn : n % 100 = n := by omega
      rw [hn, decChars_two (by omega) hb]
      simp only [pad2, if_neg (show ¬ n < 10 by omega), toString_nat,
        decChars_two (show 10 ≤ n by omega) hb]
      rfl
    · have h100 : 100 ≤ n := by omega
      have h3 := decChars_length_ge3 h100
      rw [show ('0' :: '0' :: decChars n) = ['0', '0'] ++ decChars n from rfl,
        List.drop_append_eq_append_drop]
      have h2 : (['0', '0'] : List Char).drop (decChars n).length = [] := by
        apply List.drop_eq_nil_of_le
        simp only [List.length_cons, List.length_nil]
        omega
      rw [h2, List.nil_append,
        show ((['0', '0'] : List Char).length) = 2 from rfl,
        decChars_drop_two (show 10 ≤ n by omega)]
      by_cases hc : n % 100 < 10
      · have e1 : n / 10 % 10 = 0 := by omega
        have e2 : n % 10 = n % 100 := by omega
        rw [e1, e2]
        simp only [pad2, if_pos hc, toString_nat, decChars_lt10 hc]
        rfl
      · simp only [pad2, if_neg hc, toString_nat,
          decChars_two (show 10 ≤ n % 100 by omega) (show n % 100 < 100 by omega)]
        have e1 : n % 100 / 10 = n / 10 % 10 := by omega
        have e2 : n % 100 % 10 = n % 10 := by omega
        rw [e1, e2]

theorem padSlice3 {n : Nat} (h : n < 1000) :
    ("000" ++ toString n).drop (toString n).length = pad3 n := by
  rw [toString_nat, String.drop_eq]
  show (⟨('0' :: '0' :: '0' :: decChars n).drop (decChars n).length⟩ : String) = pad3 n
  by_cases ha : n < 10
  · rw [decChars_lt10 ha]
    simp only [pad3, if_pos ha, toString_nat, decChars_lt10 ha]
    rfl
  · by_cases hb : n < 100
    · rw [decChars_two (by omega) hb]
      simp only [pad3, if_neg ha, if_pos hb, toString_nat,
        decChars_two (show 10 ≤ n by omega) hb]
      rfl
    · rw [decChars_three (by omega) h]
      simp only [pad3, if_neg ha, if_neg hb, toString_nat,
        decChars_three (show 100 ≤ n by omega) h]
      rfl

theorem pad_if3 {k : Nat} (h : k < 1000) :
    (if k > 0 then ("000" ++ toString k).drop (toString k).length else "000") = pad3 k := by
  by_cases hk : k > 0
  · rw [if_pos hk, padSlice3 h]
  · have h0 : k = 0 := by omega
    subst h0
    rw [if_neg hk]
    decide

theorem pad_if2 (k : Nat) :
    (if k > 0 then ("00" ++ toString k).drop (toString k).length else "00") = pad2 (k % 100) := by
  by_cases hk : k > 0
  · rw [if_pos hk, padSlice2]
  · have h0 : k = 0 := by omega
    subst h0
    rw [if_neg hk]
    decide

/-- What the rendering of the source amounts to: every field of the
divmod decomposition zero-padded to its width, the hour count **reduced
modulo 100** by the slice-based padding. -/
theorem timeSpanToString_eq (startDate endDate : JSDate) :
    timeSpanToString startDate endDate =
      pad2 ((endDate.epochMs - startDate.epochMs).natAbs / 3600000 % 100) ++ ":" ++
      pad2 ((endDate.epochMs - startDate.epochMs).natAbs % 3600000 / 60000) ++ ":" ++
      pad2 ((endDate.epochMs - startDate.epochMs).natAbs % 3600000 % 60000 / 1000) ++ "." ++
      pad3 ((endDate.epochMs - startDate.epochMs).natAbs % 3600000 % 60000 % 1000) := by
  simp only [timeSpanToString]
  set diff := (endDate.epochMs - startDate.epochMs).natAbs with hd
  rw [pad_if3 (show diff % 3600000 % 60000 % 1000 < 1000 by omega),
    pad_if2 (diff % 3600000 % 60000 / 1000),
    pad_if2 (diff % 3600000 / 60000),
    pad_if2 (diff / 3600000)]
  have e1 : diff % 3600000 / 60000 % 100 = diff % 3600000 / 60000 := by omega
  have e2 : diff % 3600000 % 60000 / 1000 % 100 = diff % 3600000 % 60000 / 1000 := by omega
  rw [e1, e2]

theorem pad2_length {k : Nat} (h : k < 100) : (pad2 k).length = 2 := by
  by_cases ha : k < 10
  · simp only [pad2, if_pos ha, toString_nat, decChars_lt10 ha]
    rfl
  · simp only [pad2, if_neg ha, toString_nat, decChars_two (by omega) h]
    rfl

theorem pad3_length {k : Nat} (h : k < 1000) : (pad3 k).length = 3 := by
  by_cases ha : k < 10
  · simp only [pad3, if_pos ha, toString_nat, decChars_lt10 ha]
    rfl
  · by_cases hb : k < 100
    · simp only [pad3, if_neg ha, if_pos hb, toString_nat, decChars_two (by omega) hb]
      rfl
    · simp only [pad3, if_neg ha, if_neg hb, toString_nat, decChars_three (by omega) h]
      rfl

theorem digitChar_isDigit {d : Nat} (h : d < 10) : (Nat.digitChar d).isDigit = true := by
  interval_cases d <;> decide

theorem pad2_digits {k : Nat} (h : k < 100) :
    (pad2 k).data.all Char.isDigit = true := by
  by_cases ha : k < 10
  · simp only [pad2, if_pos ha, toString_nat, decChars_lt10 ha]
    show (['0', Nat.digitChar k].all Char.isDigit) = true
    simp [digitChar_isDigit ha]
  · simp only [pad2, if_neg ha, toString_nat, decChars_two (by omega) h]
    show ([Nat.digitChar (k / 10), Nat.digitChar (k % 10)].all Char.isDigit) = true
    simp [digitChar_isDigit (show k / 10 < 10 by omega),
      digitChar_isDigit (show k % 10 < 10 by omega)]

theorem pad3_digits {k : Nat} (h : k < 1000) :
    (pad3 k).data.all Char.isDigit = true := by
  by_cases ha : k < 10
  · simp only [pad3, if_pos ha, toString_nat, decChars_lt10 ha]
    show (['0', '0', Nat.digitChar k].all Char.isDigit) = true
    simp [digitChar_isDigit ha]
  · by_cases hb : k < 100
    · simp only [pad3, if_neg ha, if_pos hb, toString_nat, decChars_two (by omega) hb]
      show (['0', Nat.digitChar (k / 10), Nat.digitChar (k % 10)].all Char.isDigit) = true
      simp [digitChar_isDigit (show k / 10 < 10 by omega),
        digitChar_isDigit (show k % 10 < 10 by omega)]
    · simp only [pad3, if_neg ha, if_neg hb, toString_nat, decChars_three (by omega) h]
      show ([Nat.digitChar (k / 100), Nat.digitChar (k / 10 % 10),
        Nat.digitChar (k % 10)].all Char.isDigit) = true
      simp [digitChar_isDigit (show k / 100 < 10 by omega),
        digitChar_isDigit (show k / 10 % 10 < 10 by omega),
        digitChar_isDigit (show k % 10 < 10 by omega)]

theorem timeSpanToString_length (startDate endDate : JSDate) :
    (timeSpanToString startDate endDate).length = 12 := by
  rw [timeSpanToString_eq]
  simp only [String.length_append]
  rw [pad2_length (show _ % 100 < 100 by omega),
    pad2_length (show (endDate.epochMs - startDate.epochMs).natAbs % 3600000 / 60000 < 100 by omega),
    pad2_length (show (endDate.epochMs - startDate.epochMs).natAbs % 3600000 % 60000 / 1000 < 100
      by omega),
    pad3_length (show (endDate.epochMs - startDate.epochMs).natAbs % 3600000 % 60000 % 1000 < 1000
      by omega)]
  rfl

/-- A fixed pair of date observations used as concrete timespan inputs:
only `epochMs` (the value of `getTime()`) varies, the other components
are those of `Date(2000, 1, 1, 10, 0, 0)`. -/
def spanD (ms : Int) : JSDate := ⟨ms, 2000, 1, 1, 10, 0, 0, 0, 10, 0⟩

theorem tmod_eq_zero_iff (a b : Int) : a.tmod b = 0 ↔ a % b = 0 := by
  rw [← Int.dvd_iff_tmod_eq_zero, Int.dvd_iff_emod_eq_zero]

/-! ## Claims -/

/-- Claim C2: for every date-time input `d`, `isLeapYear d` is `true` iff its
year `y` satisfies `(y % 4 = 0 ∧ y % 100 ≠ 0) ∨ y % 400 = 0`; in
particular year 1900 gives `false`, 2000 `true`, 2001 `false`, 2012
`true`, 2015 `false`. -/
theorem isLeapYear_spec :
    (∀ d : JSDate, isLeapYear d = true ↔
      ((d.fullYear % 4 = 0 ∧ d.fullYear % 100 ≠ 0) ∨ d.fullYear % 400 = 0)) ∧
    isLeapYear ⟨0, 1900, 1, 1, 0, 0, 0, 0, 0, 0⟩ = false ∧
    isLeapYear ⟨0, 2000, 1, 1, 0, 0, 0, 0, 0, 0⟩ = true ∧
    isLeapYear ⟨0, 2001, 1, 1, 0, 0, 0, 0, 0, 0⟩ = false ∧
    isLeapYear ⟨0, 2012, 1, 1, 0, 0, 0, 0, 0, 0⟩ = true ∧
    isLeapYear ⟨0, 2015, 1, 1, 0, 0, 0, 0, 0, 0⟩ = false := by
  refine ⟨fun d => ?_, by decide, by decide, by decide, by decide, by decide⟩
  have h4 := tmod_eq_zero_iff d.fullYear 4
  have h100 := tmod_eq_zero_iff d.fullYear 100
  have h400 := tmod_eq_zero_iff d.fullYear 400
  simp only [isLeapYear]
  by_cases hc : (d.fullYear.tmod 100 = 0 ∨ d.fullYear.tmod 4 ≠ 0) ∧ d.fullYear.tmod 400 ≠ 0
  · rw [if_pos hc]
    simp only [ne_eq, h4, h100, h400] at hc
    simp only [Bool.false_eq_true, false_iff]
    tauto
  · rw [if_neg hc]
    simp only [ne_eq, h4, h100, h400] at hc
    constructor
    · intro _
      tauto
    · intro _
      rfl

/-- Claim C4: `timeSpanToString` is symmetric in its two arguments — the
sign of `end - start` never affects the result. -/
theorem timeSpanToString_symmetric (a b : JSDate) :
    timeSpanToString a b = timeSpanToString b a := by
  simp only [timeSpanToString]
  rw [show (b.epochMs - a.epochMs).natAbs = (a.epochMs - b.epochMs).natAbs by
    rw [← Int.natAbs_neg, neg_sub]]

/-- Claim C6: the two parsing functions are total (each input yields either
the invalid sentinel or a valid date, never a fault); on a string that is
no date, such as `"not-a-date"`, each returns the invalid sentinel, which
the standard validity query distinguishes from every valid date.  The
platform parser behind `new Date(string)` is modelled from the spec. -/
theorem parsers_invalid_sentinel :
    isValidDate (parseDataFromRfc2822 "not-a-date") = false ∧
    isValidDate (parseDataFromIso8601 "not-a-date") = false ∧
    isValidDate (parseDataFromIso8601 "2016-01-19T08:07:37Z") = true ∧
    isValidDate (parseDataFromIso8601 "2016-01-19T16:07:37+00:00") = true ∧
    (∀ e : Int, isValidDate (some e) = true) ∧
    (∀ value : String, parseDataFromRfc2822 value = none ∨
      ∃ e : Int, parseDataFromRfc2822 value = some e) ∧
    (∀ value : String, parseDataFromIso8601 value = none ∨
      ∃ e : Int, parseDataFromIso8601 value = some e) := by
  refine ⟨by decide, by decide, by decide, by decide, fun e => rfl, fun value => ?_,
    fun value => ?_⟩
  · cases h : parseDataFromRfc2822 value
    · exact Or.inl rfl
    · exact Or.inr ⟨_, rfl⟩
  · cases h : parseDataFromIso8601 value
    · exact Or.inl rfl
    · exact Or.inr ⟨_, rfl⟩

/-- Claim C1 fails on the code: at a span of exactly 100 hours
(360,000,000 ms ≥ the claimed threshold) the full decimal hour count
`100 = floor(diff / 3600000)` does **not** appear in the output — the
hour field wraps to `"00"` and the output stays 12 characters. -/
theorem hourField_growth_counterexample :
    ((spanD 360000000).epochMs - (spanD 0).epochMs).natAbs / 3600000 = 100 ∧
    timeSpanToString (spanD 0) (spanD 360000000) = "00:00:00.000" ∧
    ¬ ("100".data <:+: (timeSpanToString (spanD 0) (spanD 360000000)).data) := by
  refine ⟨by decide, by decide, by decide⟩

/-- **C1 (amended)**: for every pair of date-time inputs at least 100
hours apart, the hour field does *not* grow beyond two digits: the output
keeps its 12-character width and the hour field shows only the hour
count modulo 100. -/
theorem hourField_mod100_of_large_span (a b : JSDate)
    (h : 360000000 ≤ (b.epochMs - a.epochMs).natAbs) :
    100 ≤ (b.epochMs - a.epochMs).natAbs / 3600000 ∧
    timeSpanToString a b =
      pad2 ((b.epochMs - a.epochMs).natAbs / 3600000 % 100) ++ ":" ++
      pad2 ((b.epochMs - a.epochMs).natAbs % 3600000 / 60000) ++ ":" ++
      pad2 ((b.epochMs - a.epochMs).natAbs % 3600000 % 60000 / 1000) ++ "." ++
      pad3 ((b.epochMs - a.epochMs).natAbs % 3600000 % 60000 % 1000) ∧
    (timeSpanToString a b).length = 12 :=
  ⟨by omega, timeSpanToString_eq a b, timeSpanToString_length a b⟩

theorem hourField_mod100_of_large_span_witness :
    360000000 ≤ ((spanD 432000000).epochMs - (spanD 0).epochMs).natAbs ∧
    (100 ≤ ((spanD 432000000).epochMs - (spanD 0).epochMs).natAbs / 3600000 ∧
      timeSpanToString (spanD 0) (spanD 432000000) =
        pad2 (((spanD 432000000).epochMs - (spanD 0).epochMs).natAbs / 3600000 % 100) ++ ":" ++
        pad2 (((spanD 432000000).epochMs - (spanD 0).epochMs).natAbs % 3600000 / 60000) ++ ":" ++
        pad2 (((spanD 432000000).epochMs - (spanD 0).epochMs).natAbs % 3600000 % 60000 / 1000) ++
        "." ++
        pad3 (((spanD 432000000).epochMs - (spanD 0).epochMs).natAbs % 3600000 % 60000 % 1000) ∧
      (timeSpanToString (spanD 0) (spanD 432000000)).length = 12) :=
  ⟨by decide, hourField_mod100_of_large_span (spanD 0) (spanD 432000000) (by decide)⟩

/-- Claim C3 fails on the code as a universal statement: at a 101-hour
span the output is not the per-field rendering the spec describes — the hour
count 101 is cut to `"01"` by the padding-by-slice. -/
theorem spanRendering_counterexample :
    timeSpanToString (spanD 0) (spanD 363600000) = "01:00:00.000" ∧
    specTimeSpanToString (spanD 0) (spanD 363600000) = "101:00:00.000" ∧
    timeSpanToString (spanD 0) (spanD 363600000) ≠
      specTimeSpanToString (spanD 0) (spanD 363600000) := by
  refine ⟨by decide, by decide, by decide⟩

/-- **C3 (amended)**: the rendering is as the claim states — minutes
`floor((diff mod 3600000) / 60000)`, seconds `floor((diff mod 60000) /
1000)`, milliseconds `diff mod 1000`, each zero-padded, zero fields all
zeros — except that the hour field shows `floor(diff / 3600000) mod 100`
(two digits) instead of the unreduced hour count; the five concrete
examples all hold. -/
theorem spanRendering_amended :
    (∀ a b : JSDate, timeSpanToString a b =
      pad2 ((b.epochMs - a.epochMs).natAbs / 3600000 % 100) ++ ":" ++
      pad2 ((b.epochMs - a.epochMs).natAbs % 3600000 / 60000) ++ ":" ++
      pad2 ((b.epochMs - a.epochMs).natAbs % 60000 / 1000) ++ "." ++
      pad3 ((b.epochMs - a.epochMs).natAbs % 1000)) ∧
    timeSpanToString (spanD 0) (spanD 3600000) = "01:00:00.000" ∧
    timeSpanToString (spanD 0) (spanD 1800000) = "00:30:00.000" ∧
    timeSpanToString (spanD 0) (spanD 20000) = "00:00:20.000" ∧
    timeSpanToString (spanD 0) (spanD 250) = "00:00:00.250" ∧
    timeSpanToString (spanD 0) (spanD 19210453) = "05:20:10.453" := by
  refine ⟨fun a b => ?_, by decide, by decide, by decide, by decide, by decide⟩
  rw [timeSpanToString_eq]
  have e1 : (b.epochMs - a.epochMs).natAbs % 3600000 % 60000 / 1000 =
      (b.epochMs - a.epochMs).natAbs % 60000 / 1000 := by omega
  have e2 : (b.epochMs - a.epochMs).natAbs % 3600000 % 60000 % 1000 =
      (b.epochMs - a.epochMs).natAbs % 1000 := by omega
  rw [e1, e2]

/-- Claim C9: for every pair of date-time inputs the output has length
exactly 12 and matches `^\d\d:\d\d:\d\d\.\d\d\d$` — each field is all
digits at its fixed width — and the hour field shows the hour count
modulo 100 (leading digits silently dropped by the padding-by-slice). -/
theorem spanShape_fixed_width (a b : JSDate) :
    (timeSpanToString a b).length = 12 ∧
    timeSpanToString a b =
      pad2 ((b.epochMs - a.epochMs).natAbs / 3600000 % 100) ++ ":" ++
      pad2 ((b.epochMs - a.epochMs).natAbs % 3600000 / 60000) ++ ":" ++
      pad2 ((b.epochMs - a.epochMs).natAbs % 3600000 % 60000 / 1000) ++ "." ++
      pad3 ((b.epochMs - a.epochMs).natAbs % 3600000 % 60000 % 1000) ∧
    (pad2 ((b.epochMs - a.epochMs).natAbs / 3600000 % 100)).length = 2 ∧
    (pad2 ((b.epochMs - a.epochMs).natAbs % 3600000 / 60000)).length = 2 ∧
    (pad2 ((b.epochMs - a.epochMs).natAbs % 3600000 % 60000 / 1000)).length = 2 ∧
    (pad3 ((b.epochMs - a.epochMs).natAbs % 3600000 % 60000 % 1000)).length = 3 ∧
    (pad2 ((b.epochMs - a.epochMs).natAbs / 3600000 % 100)).data.all Char.isDigit = true ∧
    (pad2 ((b.epochMs - a.epochMs).natAbs % 3600000 / 60000)).data.all Char.isDigit = true ∧
    (pad2 ((b.epochMs - a.epochMs).natAbs % 3600000 % 60000 / 1000)).data.all
      Char.isDigit = true ∧
    (pad3 ((b.epochMs - a.epochMs).natAbs % 3600000 % 60000 % 1000)).data.all
      Char.isDigit = true :=
  ⟨timeSpanToString_length a b, timeSpanToString_eq a b,
    pad2_length (by omega), pad2_length (by omega), pad2_length (by omega),
    pad3_length (by omega),
    pad2_digits (by omega), pad2_digits (by omega), pad2_digits (by omega),
    pad3_digits (by omega)⟩

/-! ## The clock-hand angle -/

/-- The returned radian value, rewritten with the absolute value pulled
apart: `|diff * π / 180| = |diff| * (π / 180)`. -/
theorem angle_eq (d : JSDate) :
    angleBetweenClockHands d =
      |((clockDiffDeg d.utcHours d.minutes : ℚ) : ℝ)| * (Real.pi / 180) := by
  rw [angleBetweenClockHands, abs_div, abs_mul,
    abs_of_nonneg Real.pi_nonneg, abs_of_nonneg (show (0:ℝ) ≤ 180 by norm_num)]
  ring

/-- The degree-valued difference is always at most 180 in absolute value
(for a minute component below 60). -/
theorem clockDiffDeg_abs_le (hour0 : Nat) {minute : Nat} (hm : minute < 60) :
    |clockDiffDeg hour0 minute| ≤ 180 := by
  simp only [clockDiffDeg]
  set hr : Nat := if hour0 > 12 then hour0 % 12 else hour0 with hhr
  have hh : hr ≤ 12 := by
    rw [hhr]
    split
    · omega
    · omega
  have hhq : ((hr : ℚ)) ≤ 12 := by exact_mod_cast hh
  have hhq0 : (0:ℚ) ≤ (hr : ℚ) := Nat.cast_nonneg hr
  have hmq : ((minute : ℚ)) ≤ 59 := by exact_mod_cast Nat.lt_succ_iff.mp hm
  have hmq0 : (0:ℚ) ≤ (minute : ℚ) := Nat.cast_nonneg minute
  set raw : ℚ := ((hr : ℚ) + (minute : ℚ) / 60) * 30 - (minute : ℚ) * 6 with hraw
  have hlo : -(540:ℚ) ≤ raw := by rw [hraw]; linarith
  have hhi : raw ≤ (540:ℚ) := by rw [hraw]; linarith
  by_cases hc : |raw| > 180
  · rw [if_pos hc]
    have h540 : |raw| ≤ 540 := abs_le.mpr ⟨hlo, hhi⟩
    rw [abs_le]
    constructor
    · linarith
    · linarith
  · rw [if_neg hc]
    exact le_of_not_lt hc

/-- Claim C5: for every valid date-time input (UTC hour below 24, minute
below 60) the returned angle lies in the closed interval `[0, π]`. -/
theorem angle_in_range (d : JSDate) (hh : d.utcHours < 24) (hm : d.minutes < 60) :
    0 ≤ angleBetweenClockHands d ∧ angleBetweenClockHands d ≤ Real.pi := by
  constructor
  · exact abs_nonneg _
  · rw [angle_eq]
    have hq : |clockDiffDeg d.utcHours d.minutes| ≤ 180 := clockDiffDeg_abs_le d.utcHours hm
    have hq' : |((clockDiffDeg d.utcHours d.minutes : ℚ) : ℝ)| ≤ 180 := by
      rw [← Rat.cast_abs]
      exact_mod_cast hq
    have hpi := Real.pi_pos
    have hdiv : (0:ℝ) ≤ Real.pi / 180 := by positivity
    have hmul := mul_le_mul_of_nonneg_right hq' hdiv
    have h180 : (180:ℝ) * (Real.pi / 180) = Real.pi := by ring
    linarith

/-- A fixed pair of clock observations: only the UTC-hour and minute
components vary, the rest are those of a date in 2016. -/
def clockD (uh mi : Nat) : JSDate := ⟨1459825200000, 2016, 3, 5, uh, mi, 0, 0, uh, mi⟩

theorem angle_in_range_witness :
    ((clockD 3 0).utcHours < 24 ∧ (clockD 3 0).minutes < 60) ∧
    (0 ≤ angleBetweenClockHands (clockD 3 0) ∧
      angleBetweenClockHands (clockD 3 0) ≤ Real.pi) :=
  ⟨⟨by decide, by decide⟩, angle_in_range (clockD 3 0) (by decide) (by decide)⟩

/-- Claim C7: the function reads only the UTC-hour and the (local) minute
observation of its input: two date values agreeing on those two
components yield the same angle, whatever their other components. -/
theorem angle_reads_only_utcHour_localMinute (d1 d2 : JSDate)
    (hh : d1.utcHours = d2.utcHours) (hm : d1.minutes = d2.minutes) :
    angleBetweenClockHands d1 = angleBetweenClockHands d2 := by
  simp only [angleBetweenClockHands, hh, hm]

theorem angle_reads_only_utcHour_localMinute_witness :
    ((⟨0, 1999, 0, 4, 7, 30, 11, 250, 9, 59⟩ : JSDate).utcHours =
      (⟨999, 2024, 5, 28, 23, 30, 59, 1, 9, 0⟩ : JSDate).utcHours) ∧
    ((⟨0, 1999, 0, 4, 7, 30, 11, 250, 9, 59⟩ : JSDate).minutes =
      (⟨999, 2024, 5, 28, 23, 30, 59, 1, 9, 0⟩ : JSDate).minutes) ∧
    angleBetweenClockHands ⟨0, 1999, 0, 4, 7, 30, 11, 250, 9, 59⟩ =
      angleBetweenClockHands ⟨999, 2024, 5, 28, 23, 30, 59, 1, 9, 0⟩ :=
  ⟨rfl, rfl, angle_reads_only_utcHour_localMinute _ _ rfl rfl⟩

/-- Claim C8: the four concrete examples — 00:00, 03:00, 18:00, 21:00 give
exactly `0`, `π/2`, `π`, `π/2`. -/
theorem angle_concrete_values :
    angleBetweenClockHands (clockD 0 0) = 0 ∧
    angleBetweenClockHands (clockD 3 0) = Real.pi / 2 ∧
    angleBetweenClockHands (clockD 18 0) = Real.pi ∧
    angleBetweenClockHands (clockD 21 0) = Real.pi / 2 := by
  refine ⟨?_, ?_, ?_, ?_⟩
  · rw [angle_eq]
    rw [show clockDiffDeg (clockD 0 0).utcHours (clockD 0 0).minutes = 0 from by
      norm_num [clockDiffDeg, clockD]]
    simp
  · rw [angle_eq]
    rw [show clockDiffDeg (clockD 3 0).utcHours (clockD 3 0).minutes = 90 from by
      norm_num [clockDiffDeg, clockD]]
    rw [show (((90:ℚ)) : ℝ) = 90 by norm_num,
      abs_of_nonneg (show (0:ℝ) ≤ 90 by norm_num)]
    ring
  · rw [angle_eq]
    rw [show clockDiffDeg (clockD 18 0).utcHours (clockD 18 0).minutes = 180 from by
      norm_num [clockDiffDeg, clockD]]
    rw [show (((180:ℚ)) : ℝ) = 180 by norm_num,
      abs_of_nonneg (show (0:ℝ) ≤ 180 by norm_num)]
    ring
  · rw [angle_eq]
    rw [show clockDiffDeg (clockD 21 0).utcHours (clockD 21 0).minutes = -90 from by
      norm_num [clockDiffDeg, clockD]]
    rw [show (((-90:ℚ)) : ℝ) = -90 by norm_num,
      abs_of_nonpos (show (-90:ℝ) ≤ 0 by norm_num)]
    ring

/-- The wraparound correction cancels the unreduced hour-12 case: in
degrees, hour 12 and hour 0 give differences of equal absolute value for
every minute below 60. -/
theorem clock_wrap_key (m : Nat) (hm : m < 60) :
    |(if |((12:ℚ) + (m:ℚ) / 60) * 30 - (m:ℚ) * 6| > 180
        then |((12:ℚ) + (m:ℚ) / 60) * 30 - (m:ℚ) * 6| - 360
        else ((12:ℚ) + (m:ℚ) / 60) * 30 - (m:ℚ) * 6)| =
      |(if |((0:ℚ) + (m:ℚ) / 60) * 30 - (m:ℚ) * 6| > 180
        then |((0:ℚ) + (m:ℚ) / 60) * 30 - (m:ℚ) * 6| - 360
        else ((0:ℚ) + (m:ℚ) / 60) * 30 - (m:ℚ) * 6)| := by
  have h0 : (0:ℚ) ≤ (m:ℚ) := Nat.cast_nonneg m
  have h59 : (m:ℚ) ≤ 59 := by exact_mod_cast Nat.lt_succ_iff.mp hm
  rcases le_or_lt m 32 with hx | hx
  · have hx' : (m:ℚ) ≤ 32 := by exact_mod_cast hx
    have c12 : |((12:ℚ) + (m:ℚ) / 60) * 30 - (m:ℚ) * 6| > 180 := by
      rw [abs_of_nonneg (by linarith)]
      linarith
    have c0 : ¬ |((0:ℚ) + (m:ℚ) / 60) * 30 - (m:ℚ) * 6| > 180 := by
      rw [abs_of_nonpos (by linarith)]
      linarith
    rw [if_pos c12, if_neg c0,
      abs_of_nonneg (show (0:ℚ) ≤ ((12:ℚ) + (m:ℚ) / 60) * 30 - (m:ℚ) * 6 by linarith)]
    congr 1
    ring
  · have hx' : (33:ℚ) ≤ (m:ℚ) := by exact_mod_cast hx
    have c12 : ¬ |((12:ℚ) + (m:ℚ) / 60) * 30 - (m:ℚ) * 6| > 180 := by
      rw [abs_of_nonneg (by linarith)]
      linarith
    have c0 : |((0:ℚ) + (m:ℚ) / 60) * 30 - (m:ℚ) * 6| > 180 := by
      rw [abs_of_nonpos (by linarith)]
      linarith
    rw [if_neg c12, if_pos c0,
      abs_of_nonpos (show ((0:ℚ) + (m:ℚ) / 60) * 30 - (m:ℚ) * 6 ≤ 0 by linarith)]
    rw [show -(((0:ℚ) + (m:ℚ) / 60) * 30 - (m:ℚ) * 6) - 360 =
        -(((12:ℚ) + (m:ℚ) / 60) * 30 - (m:ℚ) * 6) by ring, abs_neg]

/-- Claim C10: the angle is invariant under replacing UTC hour 12 by 0 (all
other components equal): the wraparound correction cancels the unreduced
hour-12 case, so the `hour > 12` (rather than `≥ 12`) reduction is
observationally harmless. -/
theorem angle_hour12_eq_hour0 (e fy : Int) (mo dd lh mi se mls um : Nat)
    (hm : mi < 60) :
    angleBetweenClockHands ⟨e, fy, mo, dd, lh, mi, se, mls, 12, um⟩ =
      angleBetweenClockHands ⟨e, fy, mo, dd, lh, mi, se, mls, 0, um⟩ := by
  rw [angle_eq, angle_eq]
  show |((clockDiffDeg 12 mi : ℚ) : ℝ)| * (Real.pi / 180) =
    |((clockDiffDeg 0 mi : ℚ) : ℝ)| * (Real.pi / 180)
  have key : |clockDiffDeg 12 mi| = |clockDiffDeg 0 mi| := by
    simp only [clockDiffDeg]
    rw [if_neg (show ¬ ((12:Nat) > 12) by omega), if_neg (show ¬ ((0:Nat) > 12) by omega),
      show (((12:Nat)) : ℚ) = (12:ℚ) by norm_num, show (((0:Nat)) : ℚ) = (0:ℚ) by norm_num]
    exact clock_wrap_key mi hm
  rw [← Rat.cast_abs, ← Rat.cast_abs, key]

theorem angle_hour12_eq_hour0_witness :
    (20:Nat) < 60 ∧
    angleBetweenClockHands ⟨0, 2016, 3, 5, 0, 20, 0, 0, 12, 20⟩ =
      angleBetweenClockHands ⟨0, 2016, 3, 5, 0, 20, 0, 0, 0, 20⟩ :=
  ⟨by decide, angle_hour12_eq_hour0 0 2016 3 5 0 20 0 0 20 (by decide)⟩

end DateTasks
